import Mathlib

/-!
Shallow embedding of `src/interaction.rs` of the gloom repository.

The core is `InteractionHandle`: a handle bound to one interaction
(id, token, permission snapshot) together with one piece of mutable
state, the `responded : Arc<Mutex<bool>>` flag.  Every operation
acquires the mutex for its whole duration, so sequential operation on
the flag is modelled by explicit state passing: each operation is a
pure function from the current `responded` value (plus an oracle for
the outcome of the network call it may make) to the new `responded`
value, the list of wire calls it performed, and its result.  A
fine-grained interleaving model with an explicit mutex is developed
further down for the concurrency claim.

The remote HTTP layer (twilight) is external to the repository; its
call outcomes are supplied as oracle inputs, and the payload values it
would serialize are recorded as `WireCall` data.  Caller-supplied
payload atoms (embeds, attachments, allowed-mentions policies,
autocomplete choices, HTTP error values) are opaque to the core, which
only routes them, so they are modelled by `Nat`.
-/

namespace Gloom

/-- Opaque caller-supplied embed value; the core only routes it. -/
abbrev Embed := Nat

/-- Opaque caller-supplied attachment value; the core only routes it. -/
abbrev Attachment := Nat

/-- Opaque caller-supplied allowed-mentions policy; the core only routes it. -/
abbrev AllowedMentions := Nat

/-- Opaque autocomplete choice value (`CommandOptionChoice`); the core only routes it. -/
abbrev CommandOptionChoice := Nat

/-- Opaque error value of a failed HTTP request (`twilight_http::error::Error`). -/
abbrev HttpErr := Nat

/-- Opaque error value of a failed payload validation in the followup builder
(`twilight_validate` errors surfaced by the builder methods). -/
abbrev ValidationErr := Nat

/-- A text input field for a modal, opaque to the core. -/
structure TextInput where
  val : Nat
deriving DecidableEq, Repr

/-- Message component (`twilight_model::channel::message::Component`), as used by
the core: an action row holding components, or a text input. -/
inductive Component where
  | actionRow (components : List Component)
  | textInput (t : TextInput)

/-- The caller-constructed `Reply` payload (crate `reply` module): content text,
embeds, components, attachments, message flags, tts flag, and the optional
allowed-mentions policy (outer `Option` = whether the caller set the field,
inner = the policy to use, `None` meaning "no mentions allowed"). -/
structure Reply where
  content : String
  embeds : List Embed
  components : List Component
  attachments : List Attachment
  flags : Nat
  tts : Bool
  allowed_mentions : Option (Option AllowedMentions)

/-- Permission bitsets are numbers whose binary digits are permission bits
(`twilight_model::guild::Permissions`, a `bitflags` bitset). -/
abbrev Permissions := Nat

/-- Number of permission bits the platform defines; a valid `Permissions`
value only has these bits. -/
def Permissions.numBits : Nat := 47

/-- `Permissions::all()`: the bitset with every defined permission bit set. -/
def Permissions.all : Permissions := 2 ^ Permissions.numBits - 1

/-- A `Permissions` value is valid when it only uses defined bits. -/
abbrev Permissions.Valid (p : Permissions) : Prop := p < 2 ^ Permissions.numBits

/-- bitflags set difference `a - b`: the bits of `a` not in `b`. -/
def Permissions.diff (a b : Permissions) : Permissions := Nat.ldiff a b

/-- `MessageFlags::EPHEMERAL` (bit 6). -/
def MessageFlags.EPHEMERAL : Nat := 64

/-- `UserError` of the crate's error module (the module is not under `src/`;
the variant is modelled from its construction site in `check_permissions` and
the spec: "fails with MissingPermissions(missing_bits)"). -/
inductive UserError where
  | missingPermissions (missing : Option Permissions)
deriving DecidableEq, Repr

/-- `InteractionError`: an error returned by the crate when responding to
interactions. -/
inductive InteractionError where
  | alreadyResponded
deriving DecidableEq, Repr

/-- The `anyhow::Error` values the operations can return: the crate's own
`InteractionError`, an HTTP request error, or a followup-builder validation
error. -/
inductive AnyErr where
  | interaction (e : InteractionError)
  | http (e : HttpErr)
  | validation (e : ValidationErr)
deriving DecidableEq, Repr

/-- The immutable data of an `InteractionHandle`: the interaction's id and
token and the bot's permission snapshot.  The mutable `responded` flag is
passed explicitly to each operation. -/
structure InteractionHandle where
  id : Nat
  token : String
  app_permissions : Permissions
deriving DecidableEq, Repr

/-- The inbound `Interaction` fields the handle constructor reads:
`app_permissions` is absent in contexts without a permission concept. -/
structure Interaction where
  id : Nat
  token : String
  app_permissions : Option Permissions
deriving DecidableEq, Repr

/-- `Bot::interaction_handle`: builds the handle from an interaction snapshot,
with absent permissions defaulting to `Permissions::all()`, paired with the
initial `responded` state, which starts `false`. -/
def interaction_handle (interaction : Interaction) : InteractionHandle × Bool :=
  (⟨interaction.id, interaction.token,
    interaction.app_permissions.getD Permissions.all⟩, false)

/-- `InteractionHandle::check_permissions`: computes the missing permissions
`required - granted` and fails with them when the set is non-empty. -/
def InteractionHandle.check_permissions (h : InteractionHandle)
    (required_permissions : Permissions) : Except UserError Unit :=
  let missing_permissions := Permissions.diff required_permissions h.app_permissions
  if missing_permissions ≠ 0 then
    .error (.missingPermissions (some missing_permissions))
  else
    .ok ()

/-- `InteractionResponseType`, restricted to the kinds the core sends. -/
inductive InteractionResponseType where
  | deferredChannelMessageWithSource
  | channelMessageWithSource
  | applicationCommandAutocompleteResult
  | modal
deriving DecidableEq, Repr

/-- `InteractionResponseData`: the optional fields of an initial response
payload.  Every field defaults to `none` (`Default::default()`). -/
structure InteractionResponseData where
  content : Option String := none
  embeds : Option (List Embed) := none
  components : Option (List Component) := none
  attachments : Option (List Attachment) := none
  flags : Option Nat := none
  tts : Option Bool := none
  allowed_mentions : Option AllowedMentions := none
  choices : Option (List CommandOptionChoice) := none
  custom_id : Option String := none
  title : Option String := none

/-- `InteractionResponse`: response kind plus its data. -/
structure InteractionResponse where
  kind : InteractionResponseType
  data : Option InteractionResponseData

/-- The payload a `create_followup` builder chain would send.  `content` and
`allowed_mentions` are `none` when the corresponding builder method was not
called (for `allowed_mentions` the inner option is the argument passed). -/
structure FollowupPayload where
  token : String
  content : Option String := none
  allowed_mentions : Option (Option AllowedMentions) := none
  embeds : List Embed
  components : List Component
  attachments : List Attachment
  flags : Nat
  tts : Bool

/-- A wire call to the remote interaction API: an initial response keyed by
interaction id and token, or a followup keyed by token only. -/
inductive WireCall where
  | create_response (id : Nat) (token : String) (response : InteractionResponse)
  | create_followup (payload : FollowupPayload)

/-- Outcome of a `create_response` request, supplied as an oracle. -/
inductive NetResult where
  | ok
  | err (e : HttpErr)
deriving DecidableEq, Repr

/-- Outcome of a followup builder chain, supplied as an oracle: a builder
method may reject the payload before any request is made, or the request is
sent and the HTTP layer reports failure or success. -/
inductive FollowupOutcome where
  | validationErr (e : ValidationErr)
  | sendErr (e : HttpErr)
  | sent
deriving DecidableEq, Repr

/-- The remote-layer oracle for one operation invocation: the outcome of the
`create_response` call it may make, and of the followup chain it may run. -/
structure Remote where
  response : NetResult
  followup : FollowupOutcome
deriving DecidableEq, Repr

/-- Result of running one operation: the new `responded` value, the wire
calls attempted, and the operation's return value. -/
structure OpOut where
  responded : Bool
  calls : List WireCall
  result : Except AnyErr Unit

/-- `InteractionHandle::defer`: first response only; sends a deferred
acknowledgement carrying the ephemeral flag; sets `responded` only on
success. -/
def InteractionHandle.defer (h : InteractionHandle) (responded : Bool)
    (ephemeral : Bool) (remote : Remote) : OpOut :=
  if responded then
    ⟨responded, [], .error (.interaction .alreadyResponded)⟩
  else
    let defer_response : InteractionResponse :=
      { kind := .deferredChannelMessageWithSource
        data := some { flags := if ephemeral then some MessageFlags.EPHEMERAL else none } }
    match remote.response with
    | .err e => ⟨responded, [.create_response h.id h.token defer_response], .error (.http e)⟩
    | .ok => ⟨true, [.create_response h.id h.token defer_response], .ok ()⟩

/-- The followup payload `reply` builds when the interaction was already
responded to: content only when non-empty, allowed-mentions only when the
caller set the field, the rest passed through. -/
def followupPayload (token : String) (reply : Reply) : FollowupPayload :=
  { token
    content := if reply.content.isEmpty then none else some reply.content
    allowed_mentions := reply.allowed_mentions
    embeds := reply.embeds
    components := reply.components
    attachments := reply.attachments
    flags := reply.flags
    tts := reply.tts }

/-- The initial response payload `reply` builds when the interaction was not
yet responded to: every field of the `Reply` included as given. -/
def initialReplyResponse (reply : Reply) : InteractionResponse :=
  { kind := .channelMessageWithSource
    data := some
      { content := some reply.content
        embeds := some reply.embeds
        components := some reply.components
        attachments := some reply.attachments
        flags := some reply.flags
        tts := some reply.tts
        allowed_mentions := reply.allowed_mentions.join
        choices := none
        custom_id := none
        title := none } }

/-- `InteractionHandle::reply`: dual mode.  Already responded: run the
followup builder chain; `responded` unchanged.  Not yet responded: send the
full message as the initial response and set `responded` on success. -/
def InteractionHandle.reply (h : InteractionHandle) (responded : Bool)
    (reply : Reply) (remote : Remote) : OpOut :=
  if responded then
    match remote.followup with
    | .validationErr e => ⟨responded, [], .error (.validation e)⟩
    | .sendErr e =>
        ⟨responded, [.create_followup (followupPayload h.token reply)], .error (.http e)⟩
    | .sent =>
        ⟨responded, [.create_followup (followupPayload h.token reply)], .ok ()⟩
  else
    match remote.response with
    | .err e =>
        ⟨responded, [.create_response h.id h.token (initialReplyResponse reply)],
          .error (.http e)⟩
    | .ok =>
        ⟨true, [.create_response h.id h.token (initialReplyResponse reply)], .ok ()⟩

/-- `InteractionHandle::followup` (deprecated): calls `reply` and re-wraps
its result with `?` followed by `Ok(())`. -/
def InteractionHandle.followup (h : InteractionHandle) (responded : Bool)
    (reply : Reply) (remote : Remote) : OpOut :=
  let out := h.reply responded reply remote
  match out.result with
  | .error e => ⟨out.responded, out.calls, .error e⟩
  | .ok _ => ⟨out.responded, out.calls, .ok ()⟩

/-- `InteractionHandle::autocomplete`: first response only; sends the choice
list; sets `responded` only on success. -/
def InteractionHandle.autocomplete (h : InteractionHandle) (responded : Bool)
    (choices : List CommandOptionChoice) (remote : Remote) : OpOut :=
  if responded then
    ⟨responded, [], .error (.interaction .alreadyResponded)⟩
  else
    let response : InteractionResponse :=
      { kind := .applicationCommandAutocompleteResult
        data := some { choices := some choices } }
    match remote.response with
    | .err e => ⟨responded, [.create_response h.id h.token response], .error (.http e)⟩
    | .ok => ⟨true, [.create_response h.id h.token response], .ok ()⟩

/-- The modal response payload: each text input wrapped in its own
single-component action row, in input order. -/
def modalResponse (custom_id title : String) (text_inputs : List TextInput) :
    InteractionResponse :=
  { kind := .modal
    data := some
      { custom_id := some custom_id
        title := some title
        components := some (text_inputs.map fun text_input =>
          Component.actionRow [Component.textInput text_input]) } }

/-- `InteractionHandle::modal`: first response only; sends the modal prompt;
sets `responded` only on success. -/
def InteractionHandle.modal (h : InteractionHandle) (responded : Bool)
    (custom_id : String) (title : String) (text_inputs : List TextInput)
    (remote : Remote) : OpOut :=
  if responded then
    ⟨responded, [], .error (.interaction .alreadyResponded)⟩
  else
    match remote.response with
    | .err e =>
        ⟨responded, [.create_response h.id h.token (modalResponse custom_id title text_inputs)],
          .error (.http e)⟩
    | .ok =>
        ⟨true, [.create_response h.id h.token (modalResponse custom_id title text_inputs)],
          .ok ()⟩

/-- One invocation of a state-touching public operation, with its arguments. -/
inductive Op where
  | defer (ephemeral : Bool)
  | reply (r : Reply)
  | followup (r : Reply)
  | autocomplete (choices : List CommandOptionChoice)
  | modal (custom_id title : String) (text_inputs : List TextInput)

/-- Dispatch one operation on the current `responded` state. -/
def stepOp (h : InteractionHandle) (responded : Bool) (op : Op) (remote : Remote) : OpOut :=
  match op with
  | .defer ephemeral => h.defer responded ephemeral remote
  | .reply r => h.reply responded r remote
  | .followup r => h.followup responded r remote
  | .autocomplete choices => h.autocomplete responded choices remote
  | .modal custom_id title text_inputs => h.modal responded custom_id title text_inputs remote

/-- The successive `responded` values produced by a sequence of operations
(one entry per operation, each paired with its remote oracle). -/
def runTrace (h : InteractionHandle) (responded : Bool) :
    List (Op × Remote) → List Bool
  | [] => []
  | (op, remote) :: rest =>
      let out := stepOp h responded op remote
      out.responded :: runTrace h out.responded rest

/-- Number of `false → true` transitions between adjacent entries. -/
def flips : List Bool → Nat
  | a :: b :: rest => (if !a && b then 1 else 0) + flips (b :: rest)
  | _ => 0

/-- Whether a wire call is an initial response (`create_response`). -/
def WireCall.isInitial : WireCall → Bool
  | .create_response .. => true
  | .create_followup _ => false

/-! ### Fine-grained interleaving model of two concurrent `reply` callers

Two tasks share one handle: the `responded` flag sits behind a mutex that a
task acquires before reading the flag and releases only after the wire call
completed and the flag was (possibly) updated.  A task therefore has three
observable phases: waiting to acquire, inside the critical section with the
flag value it read (`saw`) while its network call is in flight, and done.
Scheduling is an arbitrary interleaving of task steps; a scheduled task
that cannot move (it is waiting on the mutex, or already done) stutters. -/

/-- Program counter of one `reply` task. -/
inductive TaskPC where
  | start
  | inCS (saw : Bool)
  | done

/-- Global state of the two-task interleaving: the shared flag, the mutex
holder (`false` = first task, `true` = second), both program counters, the
wire calls made so far, and each task's result once finished. -/
structure CState where
  responded : Bool
  lock : Option Bool
  pcA : TaskPC
  pcB : TaskPC
  calls : List WireCall
  resA : Option (Except AnyErr Unit)
  resB : Option (Except AnyErr Unit)

/-- The write the critical section performs on the shared flag: `reply`
writes `true` only in the initial-response branch after a successful call;
otherwise the shared flag is not written. -/
def newFlag (saw : Bool) (remote : Remote) (current : Bool) : Bool :=
  match saw, remote.response with
  | false, .ok => true
  | _, _ => current

/-- One scheduler step: run task `t` if it can move.  Acquiring the mutex
and reading the flag is one atomic step; completing the wire call, updating
the flag and releasing the mutex is another, so the network round trip sits
between the read and the write, protected only by the held mutex. -/
def cstep (h : InteractionHandle) (rA rB : Reply) (rmA rmB : Remote)
    (s : CState) (t : Bool) : CState :=
  if t then
    match s.pcB, s.lock with
    | .start, none => { s with lock := some true, pcB := .inCS s.responded }
    | .inCS saw, _ =>
        let out := h.reply saw rB rmB
        { responded := newFlag saw rmB s.responded
          lock := none
          pcA := s.pcA
          pcB := .done
          calls := s.calls ++ out.calls
          resA := s.resA
          resB := some out.result }
    | _, _ => s
  else
    match s.pcA, s.lock with
    | .start, none => { s with lock := some false, pcA := .inCS s.responded }
    | .inCS saw, _ =>
        let out := h.reply saw rA rmA
        { responded := newFlag saw rmA s.responded
          lock := none
          pcA := .done
          pcB := s.pcB
          calls := s.calls ++ out.calls
          resA := some out.result
          resB := s.resB }
    | _, _ => s

/-- Run a schedule (a list of task choices) from a state. -/
def crun (h : InteractionHandle) (rA rB : Reply) (rmA rmB : Remote)
    (s : CState) : List Bool → CState
  | [] => s
  | t :: rest => crun h rA rB rmA rmB (cstep h rA rB rmA rmB s t) rest

/-- Initial state: flag `false`, mutex free, both tasks waiting. -/
def cinit : CState := ⟨false, none, .start, .start, [], none, none⟩

/-- The reachable-state invariant of the two-task system when both remote
outcomes are successes: the mutex serializes the critical sections, so the
system passes through at most nine shapes (initial; one task in its
critical section having read `false`; that task done with the only initial
response sent; the other task in its critical section having read `true`;
both done with one initial response and one followup) in the two task
orders. -/
def Inv (h : InteractionHandle) (rA rB : Reply) (s : CState) : Prop :=
  s = cinit
  ∨ s = ⟨false, some false, .inCS false, .start, [], none, none⟩
  ∨ s = ⟨false, some true, .start, .inCS false, [], none, none⟩
  ∨ s = ⟨true, none, .done, .start,
      [.create_response h.id h.token (initialReplyResponse rA)],
      some (.ok ()), none⟩
  ∨ s = ⟨true, none, .start, .done,
      [.create_response h.id h.token (initialReplyResponse rB)],
      none, some (.ok ())⟩
  ∨ s = ⟨true, some true, .done, .inCS true,
      [.create_response h.id h.token (initialReplyResponse rA)],
      some (.ok ()), none⟩
  ∨ s = ⟨true, some false, .inCS true, .done,
      [.create_response h.id h.token (initialReplyResponse rB)],
      none, some (.ok ())⟩
  ∨ s = ⟨true, none, .done, .done,
      [.create_response h.id h.token (initialReplyResponse rA),
       .create_followup (followupPayload h.token rB)],
      some (.ok ()), some (.ok ())⟩
  ∨ s = ⟨true, none, .done, .done,
      [.create_response h.id h.token (initialReplyResponse rB),
       .create_followup (followupPayload h.token rA)],
      some (.ok ()), some (.ok ())⟩

/-! ### Helper lemmas -/

/-- Bitset difference against a low-bits mask that covers the subtrahend is
empty. -/
lemma ldiff_two_pow_sub_one {p n : Nat} (hp : p < 2 ^ n) :
    Nat.ldiff p (2 ^ n - 1) = 0 := by
  apply Nat.eq_of_testBit_eq
  intro i
  rw [Nat.testBit_ldiff, Nat.testBit_two_pow_sub_one, Nat.zero_testBit]
  by_cases hi : i < n
  · simp [hi]
  · have hpi : p < 2 ^ i :=
      lt_of_lt_of_le hp (Nat.pow_le_pow_right (by norm_num) (le_of_not_lt hi))
    simp [Nat.testBit_eq_false_of_lt hpi]

/-! ### Claims -/

/-- Claim C4: each of the first-response-only operations `defer`,
`autocomplete`, `modal`, invoked on a handle whose `responded` flag is
already `true`, fails with `AlreadyResponded` and performs no wire call. -/
theorem defer_autocomplete_modal_already_responded
    (h : InteractionHandle) (remote : Remote) (ephemeral : Bool)
    (choices : List CommandOptionChoice) (custom_id title : String)
    (text_inputs : List TextInput) :
    h.defer true ephemeral remote =
      ⟨true, [], .error (.interaction .alreadyResponded)⟩ ∧
    h.autocomplete true choices remote =
      ⟨true, [], .error (.interaction .alreadyResponded)⟩ ∧
    h.modal true custom_id title text_inputs remote =
      ⟨true, [], .error (.interaction .alreadyResponded)⟩ := by
  refine ⟨?_, ?_, ?_⟩ <;> rfl

/-- Claim C6: `check_permissions` computes the missing set as the bitwise
set difference `required − granted`, fails with exactly that set when it is
non-empty, succeeds when it is empty, and its outcome depends only on the
permission snapshot (in particular not on the `responded` state, which it
neither receives nor returns). -/
theorem check_permissions_spec (h : InteractionHandle)
    (required_permissions : Permissions) :
    (∀ i, (Permissions.diff required_permissions h.app_permissions).testBit i =
        (required_permissions.testBit i && !(h.app_permissions.testBit i))) ∧
    (Permissions.diff required_permissions h.app_permissions ≠ 0 →
      h.check_permissions required_permissions =
        .error (.missingPermissions
          (some (Permissions.diff required_permissions h.app_permissions)))) ∧
    (h.check_permissions required_permissions = .ok () ↔
      Permissions.diff required_permissions h.app_permissions = 0) ∧
    (∀ h' : InteractionHandle, h'.app_permissions = h.app_permissions →
      h'.check_permissions required_permissions =
        h.check_permissions required_permissions) := by
  refine ⟨fun i => Nat.testBit_ldiff _ _ i, fun hne => ?_, ?_, fun h' hperm => ?_⟩
  · simp [InteractionHandle.check_permissions, hne]
  · by_cases hz : Permissions.diff required_permissions h.app_permissions = 0 <;>
      simp [InteractionHandle.check_permissions, hz]
  · simp [InteractionHandle.check_permissions, hperm]

/-- Claim C6 witness: required `{A,B}` = bits 0 and 1, granted `{A}` = bit 0
misses exactly `{B}` = bit 1; granted `{A,B,C}` = bits 0,1,2 succeeds. -/
theorem check_permissions_spec_witness :
    Permissions.diff 3 1 ≠ 0 ∧
    (InteractionHandle.mk 0 "" 1).check_permissions 3 =
      .error (.missingPermissions (some 2)) ∧
    (InteractionHandle.mk 0 "" 7).check_permissions 3 = .ok () := by
  have hne : Permissions.diff 3 1 ≠ 0 := by
    simp [Permissions.diff, Nat.ldiff, Nat.bitwise]
  have hval : Permissions.diff 3 1 = 2 := by
    simp [Permissions.diff, Nat.ldiff, Nat.bitwise]
  refine ⟨hne, ?_, ?_⟩
  · have := ((check_permissions_spec (InteractionHandle.mk 0 "" 1) 3).2.1) hne
    rw [hval] at this
    exact this
  · rw [((check_permissions_spec (InteractionHandle.mk 0 "" 7) 3).2.2.1)]
    simp [Permissions.diff, Nat.ldiff, Nat.bitwise]

/-- Claim C7: an interaction without permission information yields a handle
whose snapshot is the all-permissions bitset, on which `check_permissions`
succeeds for every valid required set. -/
theorem interaction_handle_no_permissions_unrestricted
    (interaction : Interaction) (required_permissions : Permissions)
    (habsent : interaction.app_permissions = none)
    (hvalid : Permissions.Valid required_permissions) :
    (interaction_handle interaction).1.app_permissions = Permissions.all ∧
    (interaction_handle interaction).1.check_permissions required_permissions =
      .ok () := by
  have happ : (interaction_handle interaction).1.app_permissions = Permissions.all := by
    simp [interaction_handle, habsent]
  refine ⟨happ, ?_⟩
  have hz : Permissions.diff required_permissions
      (interaction_handle interaction).1.app_permissions = 0 := by
    rw [happ]
    exact ldiff_two_pow_sub_one hvalid
  simp [InteractionHandle.check_permissions, hz]

/-- Claim C7 witness: a permissionless interaction grants any concrete
valid requirement. -/
theorem interaction_handle_no_permissions_unrestricted_witness :
    (Interaction.mk 9 "tok" none).app_permissions = none ∧
    Permissions.Valid 5 ∧
    (interaction_handle (Interaction.mk 9 "tok" none)).1.check_permissions 5 =
      .ok () := by
  refine ⟨rfl, by decide, ?_⟩
  exact (interaction_handle_no_permissions_unrestricted
    (Interaction.mk 9 "tok" none) 5 rfl (by decide)).2

/-- Every operation dispatched on a `responded = true` state leaves the flag
`true`. -/
lemma stepOp_true_responded (h : InteractionHandle) (op : Op) (remote : Remote) :
    (stepOp h true op remote).responded = true := by
  rcases op with eph | r' | r' | cs | ⟨cid, t, tis⟩ <;>
    rcases remote with ⟨resp, fu⟩ <;>
    rcases resp <;> rcases fu <;> rfl

/-- A `false → true` flip of one operation happens only with a successful
run whose single wire call is an initial response. -/
lemma stepOp_false_flip (h : InteractionHandle) (op : Op) (remote : Remote)
    (hflip : (stepOp h false op remote).responded = true) :
    remote.response = .ok ∧ (stepOp h false op remote).result = .ok () ∧
    ∃ response, (stepOp h false op remote).calls =
      [.create_response h.id h.token response] := by
  rcases op with eph | r' | r' | cs | ⟨cid, t, tis⟩ <;>
    rcases remote with ⟨resp, fu⟩ <;>
    rcases resp <;> rcases fu <;>
    first
      | exact ⟨rfl, rfl, _, rfl⟩
      | cases hflip

/-- Once the flag is `true`, no further operation produces a flip. -/
lemma flips_runTrace_true (h : InteractionHandle) (ops : List (Op × Remote)) :
    flips (true :: runTrace h true ops) = 0 := by
  induction ops with
  | nil => rfl
  | cons p rest ih =>
      rcases p with ⟨op, remote⟩
      simp [runTrace, flips, stepOp_true_responded h op remote, ih]

/-- From an unresponded start, the flag flips at most once along any
operation sequence. -/
lemma flips_runTrace_false (h : InteractionHandle) (ops : List (Op × Remote)) :
    flips (false :: runTrace h false ops) ≤ 1 := by
  induction ops with
  | nil => exact Nat.zero_le 1
  | cons p rest ih =>
      rcases p with ⟨op, remote⟩
      cases hst : (stepOp h false op remote).responded with
      | false => simpa [runTrace, flips, hst] using ih
      | true => simp [runTrace, flips, hst, flips_runTrace_true h rest]

/-- The nine-shape invariant is preserved by every scheduler step when both
remote outcomes are successes. -/
lemma inv_cstep (h : InteractionHandle) (rA rB : Reply) (s : CState) (t : Bool)
    (hInv : Inv h rA rB s) :
    Inv h rA rB (cstep h rA rB ⟨.ok, .sent⟩ ⟨.ok, .sent⟩ s t) := by
  rcases hInv with h0 | h1 | h2 | h3 | h4 | h5 | h6 | h7 | h8 <;>
    first
      | subst h0 | subst h1 | subst h2 | subst h3 | subst h4
      | subst h5 | subst h6 | subst h7 | subst h8
  all_goals cases t
  all_goals unfold Inv
  all_goals first
    | exact Or.inl rfl
    | exact Or.inr (Or.inl rfl)
    | exact Or.inr (Or.inr (Or.inl rfl))
    | exact Or.inr (Or.inr (Or.inr (Or.inl rfl)))
    | exact Or.inr (Or.inr (Or.inr (Or.inr (Or.inl rfl))))
    | exact Or.inr (Or.inr (Or.inr (Or.inr (Or.inr (Or.inl rfl)))))
    | exact Or.inr (Or.inr (Or.inr (Or.inr (Or.inr (Or.inr (Or.inl rfl))))))
    | exact Or.inr (Or.inr (Or.inr (Or.inr (Or.inr (Or.inr (Or.inr (Or.inl rfl)))))))
    | exact Or.inr (Or.inr (Or.inr (Or.inr (Or.inr (Or.inr (Or.inr (Or.inr rfl)))))))

/-- The invariant holds after any schedule from any invariant state. -/
lemma inv_crun (h : InteractionHandle) (rA rB : Reply) (sched : List Bool)
    (s : CState) (hInv : Inv h rA rB s) :
    Inv h rA rB (crun h rA rB ⟨.ok, .sent⟩ ⟨.ok, .sent⟩ s sched) := by
  induction sched generalizing s with
  | nil => exact hInv
  | cons t rest ih => exact ih _ (inv_cstep h rA rB s t hInv)

/-- Claim C2: two concurrent `reply` callers on one handle, under any
interleaving of the mutex-protected read-decide-send-update steps, never
produce two initial-response calls; when both remote calls succeed and both
tasks finish, exactly one initial response and exactly one followup were
sent, both callers succeeded, and the flag update is not lost. -/
theorem concurrent_reply_exactly_one_initial (h : InteractionHandle)
    (rA rB : Reply) (rmA rmB : Remote) (sched : List Bool)
    (hA : rmA = ⟨.ok, .sent⟩) (hB : rmB = ⟨.ok, .sent⟩) :
    ((crun h rA rB rmA rmB cinit sched).calls.countP
      (fun c => c.isInitial)) ≤ 1 ∧
    ((crun h rA rB rmA rmB cinit sched).pcA = .done →
      (crun h rA rB rmA rmB cinit sched).pcB = .done →
      ((crun h rA rB rmA rmB cinit sched).calls.countP
        (fun c => c.isInitial)) = 1 ∧
      ((crun h rA rB rmA rmB cinit sched).calls.countP
        (fun c => !c.isInitial)) = 1 ∧
      (crun h rA rB rmA rmB cinit sched).responded = true ∧
      (crun h rA rB rmA rmB cinit sched).resA = some (.ok ()) ∧
      (crun h rA rB rmA rmB cinit sched).resB = some (.ok ())) := by
  subst hA
  subst hB
  have hinv := inv_crun h rA rB sched cinit (Or.inl rfl)
  rcases hinv with h0 | h1 | h2 | h3 | h4 | h5 | h6 | h7 | h8 <;>
    first
      | rw [h0] | rw [h1] | rw [h2] | rw [h3] | rw [h4]
      | rw [h5] | rw [h6] | rw [h7] | rw [h8]
  all_goals
    simp [cinit, List.countP_cons, List.countP_nil, WireCall.isInitial]

/-- Claim C2 witness: the second task acquires first in a concrete
schedule; it sends the only initial response and the first task becomes the
followup, with no lost flag update. -/
theorem concurrent_reply_exactly_one_initial_witness :
    ((crun (InteractionHandle.mk 1 "tok" 0) (Reply.mk "a" [] [] [] 0 false none)
        (Reply.mk "b" [] [] [] 0 false none) ⟨.ok, .sent⟩ ⟨.ok, .sent⟩ cinit
        [true, true, false, false]).calls.countP (fun c => c.isInitial)) = 1 ∧
    ((crun (InteractionHandle.mk 1 "tok" 0) (Reply.mk "a" [] [] [] 0 false none)
        (Reply.mk "b" [] [] [] 0 false none) ⟨.ok, .sent⟩ ⟨.ok, .sent⟩ cinit
        [true, true, false, false]).calls.countP (fun c => !c.isInitial)) = 1 ∧
    (crun (InteractionHandle.mk 1 "tok" 0) (Reply.mk "a" [] [] [] 0 false none)
        (Reply.mk "b" [] [] [] 0 false none) ⟨.ok, .sent⟩ ⟨.ok, .sent⟩ cinit
        [true, true, false, false]).responded = true := by
  have H := concurrent_reply_exactly_one_initial (InteractionHandle.mk 1 "tok" 0)
    (Reply.mk "a" [] [] [] 0 false none) (Reply.mk "b" [] [] [] 0 false none)
    ⟨.ok, .sent⟩ ⟨.ok, .sent⟩ [true, true, false, false] rfl rfl
  have H2 := H.2 rfl rfl
  exact ⟨H2.1, H2.2.1, H2.2.2.1⟩

/-- Claim C1: over every operation sequence on one handle, `responded`
flips `false → true` at most once, never returns to `false` (an operation
on a `true` state leaves it `true`), and a flip occurs only as the effect
of an operation whose single wire call is a successful initial response. -/
theorem responded_single_transition (h : InteractionHandle)
    (ops : List (Op × Remote)) (op : Op) (remote : Remote) :
    flips (false :: runTrace h false ops) ≤ 1 ∧
    (stepOp h true op remote).responded = true ∧
    ((stepOp h false op remote).responded = true →
      remote.response = .ok ∧ (stepOp h false op remote).result = .ok () ∧
      ∃ response, (stepOp h false op remote).calls =
        [.create_response h.id h.token response]) :=
  ⟨flips_runTrace_false h ops, stepOp_true_responded h op remote,
   stepOp_false_flip h op remote⟩

/-- Claim C1 witness: a concrete sequence (successful defer, then reply,
then a failing autocomplete) flips the flag exactly once, and the flip step
is a successful initial response. -/
theorem responded_single_transition_witness :
    flips (false :: runTrace (InteractionHandle.mk 1 "tok" 0) false
      [(Op.defer false, Remote.mk .ok .sent),
       (Op.reply (Reply.mk "hi" [] [] [] 0 false none), Remote.mk .ok .sent),
       (Op.autocomplete [], Remote.mk (.err 3) .sent)]) ≤ 1 ∧
    (stepOp (InteractionHandle.mk 1 "tok" 0) true (Op.defer false)
      (Remote.mk .ok .sent)).responded = true ∧
    (Remote.mk .ok .sent).response = .ok := by
  have H := responded_single_transition (InteractionHandle.mk 1 "tok" 0)
    [(Op.defer false, Remote.mk .ok .sent),
     (Op.reply (Reply.mk "hi" [] [] [] 0 false none), Remote.mk .ok .sent),
     (Op.autocomplete [], Remote.mk (.err 3) .sent)]
    (Op.defer false) (Remote.mk .ok .sent)
  exact ⟨H.1, H.2.1, (H.2.2 rfl).1⟩

/-- Claim C3: `reply` is dual-mode.  Not yet responded: it sends an immediate
full message response carrying every `Reply` field and sets `responded` on
success.  Already responded: `responded` stays `true` for every outcome, and
on success it sends a followup with the same payload shape, with empty
content omitted instead of sent as an empty string. -/
theorem reply_dual_mode (h : InteractionHandle) (r : Reply) (remote : Remote) :
    (remote.response = .ok →
      h.reply false r remote =
        ⟨true,
         [.create_response h.id h.token
           ⟨.channelMessageWithSource,
            some ⟨some r.content, some r.embeds, some r.components,
              some r.attachments, some r.flags, some r.tts,
              r.allowed_mentions.join, none, none, none⟩⟩],
         .ok ()⟩) ∧
    (h.reply true r remote).responded = true ∧
    (remote.followup = .sent →
      h.reply true r remote =
        ⟨true,
         [.create_followup
           ⟨h.token, if r.content.isEmpty then none else some r.content,
            r.allowed_mentions, r.embeds, r.components, r.attachments,
            r.flags, r.tts⟩],
         .ok ()⟩) ∧
    (r.content = "" →
      followupPayload h.token r =
        ⟨h.token, none, r.allowed_mentions, r.embeds, r.components,
         r.attachments, r.flags, r.tts⟩) := by
  refine ⟨fun hok => ?_, ?_, fun hsent => ?_, fun hempty => ?_⟩
  · simp [InteractionHandle.reply, initialReplyResponse, hok]
  · rcases remote with ⟨resp, fu⟩
    rcases fu <;> rfl
  · simp [InteractionHandle.reply, followupPayload, hsent]
  · have hbe : r.content.isEmpty = true := by rw [hempty]; rfl
    simp [followupPayload, hbe]

/-- Claim C3 witness: both modes of `reply` at a concrete handle, payload
with empty content, and successful remote outcomes. -/
theorem reply_dual_mode_witness :
    (InteractionHandle.mk 1 "tok" 0).reply false
        (Reply.mk "" [] [] [] 0 false none) (Remote.mk .ok .sent) =
      ⟨true,
       [.create_response 1 "tok"
         ⟨.channelMessageWithSource,
          some ⟨some "", some [], some [], some [], some 0, some false,
            none, none, none, none⟩⟩],
       .ok ()⟩ ∧
    (InteractionHandle.mk 1 "tok" 0).reply true
        (Reply.mk "" [] [] [] 0 false none) (Remote.mk .ok .sent) =
      ⟨true, [.create_followup ⟨"tok", none, none, [], [], [], 0, false⟩],
       .ok ()⟩ := by
  have H := reply_dual_mode (InteractionHandle.mk 1 "tok" 0)
    (Reply.mk "" [] [] [] 0 false none) (Remote.mk .ok .sent)
  refine ⟨H.1 rfl, ?_⟩
  have h2 := H.2.2.1 rfl
  simpa using h2

/-- Claim C5: a failed guarded wire call never advances the `responded`
flag: whenever an operation's result is not a success, the flag is left
unchanged; in particular after a failed `defer` the flag is still `false`
and a subsequent `reply` still performs the initial response. -/
theorem failed_call_preserves_responded (h : InteractionHandle)
    (responded ephemeral : Bool) (op : Op) (remote remote2 : Remote)
    (r : Reply) (e : HttpErr) :
    ((stepOp h responded op remote).result ≠ .ok () →
      (stepOp h responded op remote).responded = responded) ∧
    (remote.response = .err e →
      (h.defer false ephemeral remote).responded = false ∧
      (h.defer false ephemeral remote).result = .error (.http e) ∧
      (h.reply (h.defer false ephemeral remote).responded r remote2).calls =
        [.create_response h.id h.token (initialReplyResponse r)]) := by
  constructor
  · intro hfail
    rcases op with eph | r' | r' | cs | ⟨cid, t, tis⟩ <;>
      rcases responded <;>
      rcases remote with ⟨resp, fu⟩ <;>
      rcases resp with _ | e' <;>
      rcases fu with e' | e' | _ <;>
      first
        | rfl
        | exact absurd rfl hfail
  · intro herr
    have hdefer : h.defer false ephemeral remote =
        ⟨false, [.create_response h.id h.token
          ⟨.deferredChannelMessageWithSource,
           some { flags := if ephemeral then some MessageFlags.EPHEMERAL else none }⟩],
         .error (.http e)⟩ := by
      simp [InteractionHandle.defer, herr]
    refine ⟨by rw [hdefer], by rw [hdefer], ?_⟩
    rw [hdefer]
    rcases remote2 with ⟨resp2, fu2⟩
    rcases resp2 <;> rfl

/-- Claim C5 witness: a failed `defer` at a concrete handle leaves the flag
`false`, surfaces the HTTP error, and the next `reply` is an initial
response. -/
theorem failed_call_preserves_responded_witness :
    (stepOp (InteractionHandle.mk 1 "tok" 0) false (Op.defer true)
        (Remote.mk (.err 7) .sent)).responded = false ∧
    ((InteractionHandle.mk 1 "tok" 0).defer false true
        (Remote.mk (.err 7) .sent)).responded = false ∧
    ((InteractionHandle.mk 1 "tok" 0).defer false true
        (Remote.mk (.err 7) .sent)).result = .error (.http 7) ∧
    ((InteractionHandle.mk 1 "tok" 0).reply
        ((InteractionHandle.mk 1 "tok" 0).defer false true
          (Remote.mk (.err 7) .sent)).responded
        (Reply.mk "hi" [] [] [] 0 false none) (Remote.mk .ok .sent)).calls =
      [.create_response 1 "tok"
        (initialReplyResponse (Reply.mk "hi" [] [] [] 0 false none))] := by
  have H := failed_call_preserves_responded (InteractionHandle.mk 1 "tok" 0)
    false true (Op.defer true) (Remote.mk (.err 7) .sent) (Remote.mk .ok .sent)
    (Reply.mk "hi" [] [] [] 0 false none) 7
  have H2 := H.2 rfl
  exact ⟨H.1 (by intro hc; cases hc), H2.1, H2.2.1, H2.2.2⟩

/-- Claim C8: `modal` as the first response sends a modal payload in which
each text input sits in its own single-field action row, one row per input
in input order, and sets `responded` on success. -/
theorem modal_wraps_inputs (h : InteractionHandle)
    (custom_id title : String) (text_inputs : List TextInput)
    (remote : Remote) (hok : remote.response = .ok) :
    h.modal false custom_id title text_inputs remote =
      ⟨true, [.create_response h.id h.token
        (modalResponse custom_id title text_inputs)], .ok ()⟩ ∧
    (modalResponse custom_id title text_inputs).data = some
      { custom_id := some custom_id
        title := some title
        components := some (text_inputs.map fun text_input =>
          Component.actionRow [Component.textInput text_input]) } ∧
    (text_inputs.map fun text_input =>
        Component.actionRow [Component.textInput text_input]).length =
      text_inputs.length ∧
    (∀ i : Nat, (text_inputs.map fun text_input =>
        Component.actionRow [Component.textInput text_input])[i]? =
      (text_inputs[i]?).map fun text_input =>
        Component.actionRow [Component.textInput text_input]) := by
  refine ⟨?_, rfl, List.length_map .., fun i => List.getElem?_map ..⟩
  simp [InteractionHandle.modal, hok]

/-- Claim C8 witness: a two-input modal at a concrete handle produces two
single-field rows in input order. -/
theorem modal_wraps_inputs_witness :
    (InteractionHandle.mk 1 "tok" 0).modal false "cid" "Title"
        [TextInput.mk 10, TextInput.mk 20] (Remote.mk .ok .sent) =
      ⟨true, [.create_response 1 "tok"
        (modalResponse "cid" "Title" [TextInput.mk 10, TextInput.mk 20])], .ok ()⟩ ∧
    (modalResponse "cid" "Title" [TextInput.mk 10, TextInput.mk 20]).data = some
      { custom_id := some "cid"
        title := some "Title"
        components := some
          [Component.actionRow [Component.textInput (TextInput.mk 10)],
           Component.actionRow [Component.textInput (TextInput.mk 20)]] } := by
  have H := modal_wraps_inputs (InteractionHandle.mk 1 "tok" 0) "cid" "Title"
    [TextInput.mk 10, TextInput.mk 20] (Remote.mk .ok .sent) rfl
  exact ⟨H.1, H.2.1⟩

/-- Claim C10: the initial-response branch of `reply` always includes the
content field, the empty string included; only the followup branch omits
empty content. -/
theorem reply_initial_content_always_included (h : InteractionHandle)
    (r : Reply) (remote : Remote) :
    (h.reply false r remote).calls =
      [.create_response h.id h.token (initialReplyResponse r)] ∧
    (∀ d, (initialReplyResponse r).data = some d → d.content = some r.content) ∧
    (r.content = "" →
      ((initialReplyResponse r).data.map InteractionResponseData.content) =
        some (some "") ∧
      (followupPayload h.token r).content = none) := by
  refine ⟨?_, fun d hd => ?_, fun hempty => ⟨?_, ?_⟩⟩
  · rcases remote with ⟨resp, fu⟩
    rcases resp <;> rfl
  · cases hd
    rfl
  · simp [initialReplyResponse, hempty]
  · have hbe : r.content.isEmpty = true := by rw [hempty]; rfl
    simp [followupPayload, hbe]

/-- Claim C10 witness: with empty content, the initial branch sends
`content = some ""` while the followup payload omits it. -/
theorem reply_initial_content_always_included_witness :
    ((InteractionHandle.mk 1 "tok" 0).reply false
        (Reply.mk "" [] [] [] 0 false none) (Remote.mk .ok .sent)).calls =
      [.create_response 1 "tok"
        (initialReplyResponse (Reply.mk "" [] [] [] 0 false none))] ∧
    ((initialReplyResponse (Reply.mk "" [] [] [] 0 false none)).data.map
        InteractionResponseData.content) = some (some "") ∧
    (followupPayload "tok" (Reply.mk "" [] [] [] 0 false none)).content = none := by
  have H := reply_initial_content_always_included (InteractionHandle.mk 1 "tok" 0)
    (Reply.mk "" [] [] [] 0 false none) (Remote.mk .ok .sent)
  exact ⟨H.1, (H.2.2 rfl).1, (H.2.2 rfl).2⟩

/-- Claim C9: the deprecated `followup` operation is behaviorally identical
to `reply`: same new state, same wire calls, same result, for every handle
state, payload and remote outcome. -/
theorem followup_eq_reply (h : InteractionHandle) (responded : Bool)
    (reply : Reply) (remote : Remote) :
    h.followup responded reply remote = h.reply responded reply remote := by
  unfold InteractionHandle.followup
  rcases hout : h.reply responded reply remote with ⟨st, calls, result⟩
  rcases result with e | u
  · rfl
  · rcases u
    rfl

end Gloom
